import Mathlib

/-
Shallow embedding of the orchestration core of nestjs-langchain-tools:
the tool execution envelope built by ToolDiscoveryService, the
ToolTimeoutService, the ToolStreamService, agent prompt assembly from
AgentDiscoveryService, the session MemoryService, and the
CoordinatorService.  Durations and instants are Nat milliseconds;
JavaScript exceptions are modelled with Except; mutable service state is
modelled by explicit state records.
-/

namespace LCTools

/-- Types of streaming updates from tools (interfaces/tool.interface.ts,
enum ToolStreamUpdateType).  The snapshot's interface file lists start,
progress, error and complete; the timeout member is modelled from the spec
(the StreamUpdate kind set of section 3 includes timeout), because
tool-timeout.service.ts emits a timeout update through
ToolStreamService.timeoutToolExecution, whose declaration is missing from
the snapshot. -/
inductive ToolStreamUpdateType
  | start
  | progress
  | error
  | complete
  | timeout
  deriving DecidableEq, Repr

/-- Streaming update from a tool (interfaces/tool.interface.ts, interface
ToolStreamUpdate).  Optional fields become Option. -/
structure ToolStreamUpdate where
  type : ToolStreamUpdateType
  toolName : String
  content : Option String
  progress : Option Nat
  error : Option String
  result : Option String
  deriving DecidableEq, Repr

/-- Tool timeout options: the shape returned by
ToolTimeoutService.getToolTimeoutConfig and stored in module options
(tool-timeout.service.ts uses exactly the fields enabled and durationMs;
the interface file declaring ToolTimeoutOptions is missing from the
snapshot, so the shape is taken from those uses). -/
structure ToolTimeoutOptions where
  enabled : Bool
  durationMs : Nat
  deriving DecidableEq, Repr

/-- A tool's own timeout declaration: `timeout?: ToolTimeoutOptions | number`
on ToolOptions.  A bare number is the num constructor. -/
inductive ToolTimeoutSetting
  | num (n : Nat)
  | opts (o : ToolTimeoutOptions)
  deriving DecidableEq, Repr

/-- Tool metadata (interfaces/tool.interface.ts, interface ToolOptions).
The zod schema is not carried here: schema validation happens in the
external tool() helper and is modelled separately by toolUnitInvoke with an
explicit validator argument.  `streaming?: boolean` becomes Bool with the
JavaScript truthiness of undefined equal to false. -/
structure ToolOptions where
  name : String
  description : String
  streaming : Bool
  timeout : Option ToolTimeoutSetting
  deriving DecidableEq, Repr

/-- Default timeout for tool execution in milliseconds
(constants/tool.constants.ts, DEFAULT_TOOL_TIMEOUT). -/
def DEFAULT_TOOL_TIMEOUT : Nat := 30000

/-- Whether to enable tool timeouts by default
(constants/tool.constants.ts, DEFAULT_TOOL_TIMEOUT_ENABLED). -/
def DEFAULT_TOOL_TIMEOUT_ENABLED : Bool := true

/-- Default tool streaming config
(constants/tool.constants.ts, DEFAULT_TOOL_STREAMING_ENABLED). -/
def DEFAULT_TOOL_STREAMING_ENABLED : Bool := false

/-- Error message constant for tool timeout
(constants/tool.constants.ts, TOOL_TIMEOUT_ERROR_MESSAGE). -/
def TOOL_TIMEOUT_ERROR_MESSAGE : String := "Tool execution timed out"

/-- Mutable state of ToolTimeoutService: the two private fields
globalTimeoutEnabled and globalTimeoutMs (tool-timeout.service.ts lines
31-32).  The onToolTimeout callback is a side effect only and carries no
state that the claims depend on, so it is not a field here. -/
structure ToolTimeoutState where
  globalTimeoutEnabled : Bool
  globalTimeoutMs : Nat
  deriving DecidableEq, Repr

namespace ToolTimeoutService

/-- Constructor initialization from module options
(tool-timeout.service.ts lines 40-51): a bare number enables timeouts with
that duration, an options object copies both fields, absence keeps the
defaults. -/
def initState (toolTimeout : Option ToolTimeoutSetting) : ToolTimeoutState :=
  match toolTimeout with
  | some (.num n) => { globalTimeoutEnabled := true, globalTimeoutMs := n }
  | some (.opts o) => { globalTimeoutEnabled := o.enabled, globalTimeoutMs := o.durationMs }
  | none =>
      { globalTimeoutEnabled := DEFAULT_TOOL_TIMEOUT_ENABLED,
        globalTimeoutMs := DEFAULT_TOOL_TIMEOUT }

/-- isTimeoutEnabled (tool-timeout.service.ts lines 61-63). -/
def isTimeoutEnabled (st : ToolTimeoutState) : Bool :=
  st.globalTimeoutEnabled

/-- setTimeoutEnabled (tool-timeout.service.ts lines 79-82). -/
def setTimeoutEnabled (st : ToolTimeoutState) (enabled : Bool) : ToolTimeoutState :=
  { st with globalTimeoutEnabled := enabled }

/-- setGlobalTimeoutMs (tool-timeout.service.ts lines 89-92). -/
def setGlobalTimeoutMs (st : ToolTimeoutState) (timeoutMs : Nat) : ToolTimeoutState :=
  { st with globalTimeoutMs := timeoutMs }

/-- getToolTimeoutConfig (tool-timeout.service.ts lines 100-117): a tool's
own timeout declaration takes precedence, a bare number meaning enabled
with that duration; otherwise the global settings are used. -/
def getToolTimeoutConfig (st : ToolTimeoutState) (toolOptions : ToolOptions) :
    ToolTimeoutOptions :=
  match toolOptions.timeout with
  | some (.num n) => { enabled := true, durationMs := n }
  | some (.opts o) => o
  | none => { enabled := st.globalTimeoutEnabled, durationMs := st.globalTimeoutMs }

end ToolTimeoutService

/-- Exceptions that can escape ToolTimeoutService.executeWithTimeout: the
ToolTimeoutError class carrying toolName and timeoutMs
(tool-timeout.service.ts lines 15-23), or any other error rethrown with
its message. -/
inductive ToolError
  | toolTimeout (toolName : String) (timeoutMs : Nat)
  | other (message : String)
  deriving DecidableEq, Repr

/-- Message built by the ToolTimeoutError constructor
(tool-timeout.service.ts line 20). -/
def toolTimeoutErrorMessage (toolName : String) (timeoutMs : Nat) : String :=
  "Tool \"" ++ toolName ++ "\" execution timed out after " ++ toString timeoutMs ++ "ms"

namespace ToolTimeoutService

/-- executeWithTimeout (tool-timeout.service.ts lines 127-197).  The body
fn is abstracted by its settle time bodyDuration (ms) and its outcome
(Except message result); alreadyTimedOut is the value of the pre-check
toolStreamService.hasToolTimedOut(toolName) at line 133, a ToolStreamService
method whose implementation is missing from the snapshot, so its result is
taken as an input.  Promise.race settles with whichever of the body and the
timer fires first; the timer fires at timeoutMs, so the timeout wins
exactly when timeoutMs < bodyDuration (a tie is resolved in favour of the
body; the claims below only use strict inequalities on either side). -/
def executeWithTimeout (alreadyTimedOut : Bool) (bodyDuration : Nat)
    (bodyOutcome : Except String String) (toolName : String) (timeoutMs : Nat) :
    Except ToolError String :=
  if alreadyTimedOut then
    .error (.toolTimeout toolName timeoutMs)
  else if timeoutMs < bodyDuration then
    .error (.toolTimeout toolName timeoutMs)
  else
    match bodyOutcome with
    | .ok r => .ok r
    | .error m => .error (.other m)

end ToolTimeoutService

namespace ToolDiscoveryService

/-- Effective timeout applied by the tool wrapper built in
ToolDiscoveryService.discoverToolsForProvider (tool-discovery.service.ts
lines 99-123): the per-tool configuration is consulted only when the
global flag isTimeoutEnabled() is true, and the timed execution path is
taken only when the resulting config has enabled true. -/
def effectiveTimeout (tsvc : ToolTimeoutState) (meta : ToolOptions) : Option Nat :=
  if ToolTimeoutService.isTimeoutEnabled tsvc then
    let cfg := ToolTimeoutService.getToolTimeoutConfig tsvc meta
    if cfg.enabled then some cfg.durationMs else none
  else
    none

/-- Whether a wrapped execution times out: the effective deadline exists
and either the pre-check hasToolTimedOut reported true or the deadline
fires strictly before the body settles. -/
def doesTimeOut (tsvc : ToolTimeoutState) (meta : ToolOptions)
    (alreadyTimedOut : Bool) (bodyDuration : Nat) : Bool :=
  match effectiveTimeout tsvc meta with
  | some t => alreadyTimedOut || decide (t < bodyDuration)
  | none => false

/-- Result string returned by the tool wrapper built in
ToolDiscoveryService.discoverToolsForProvider (tool-discovery.service.ts
lines 81-181).  The wrapped method body is abstracted by its settle time
and outcome, as in executeWithTimeout.  The function is total: every path
of the source returns a string (the outer catch at lines 161-174 converts
any exception into an Error: message string, and a ToolTimeoutError from
the timed path is converted at lines 131-146), so no exception propagates
to the caller of the tool. -/
def wrappedToolResult (tsvc : ToolTimeoutState) (meta : ToolOptions)
    (alreadyTimedOut : Bool) (bodyDuration : Nat)
    (bodyOutcome : Except String String) : String :=
  let timeoutEnabled := ToolTimeoutService.isTimeoutEnabled tsvc
  if timeoutEnabled then
    let timeoutConfig := ToolTimeoutService.getToolTimeoutConfig tsvc meta
    if timeoutConfig.enabled then
      match ToolTimeoutService.executeWithTimeout alreadyTimedOut bodyDuration
          bodyOutcome meta.name timeoutConfig.durationMs with
      | .ok r => r
      | .error (.toolTimeout _ _) =>
          "Error: Tool execution timed out after " ++
            toString timeoutConfig.durationMs ++ "ms"
      | .error (.other m) => "Error: " ++ m
    else
      match bodyOutcome with
      | .ok r => r
      | .error m => "Error: " ++ m
  else
    match bodyOutcome with
    | .ok r => r
    | .error m => "Error: " ++ m

end ToolDiscoveryService

/-- Modelled from the spec: the structural schema validation performed by
the external tool() helper of the langchain core package around the
wrapper function (tool-discovery.service.ts lines 81 and 176-180 pass
toolMetadata.schema to tool(); the helper's implementation is not part of
this repository).  Per spec section 4.1, the schema is applied to the raw
input before the wrapped method runs, and a validation failure yields an
InvalidInput error surfaced as the tool's result text, not thrown to the
caller.  The schema is abstracted by a Boolean validator. -/
def toolUnitInvoke {α : Type} (validate : α → Bool) (wrappedBody : α → String)
    (rawInput : α) : String :=
  if validate rawInput then wrappedBody rawInput
  else "InvalidInput: tool input failed schema validation"

/-- Callback receiving tool streaming updates (interfaces/tool.interface.ts,
type ToolStreamCallback); its return value is irrelevant. -/
def ToolStreamCallback : Type := ToolStreamUpdate → Unit

/-- Mutable state of ToolStreamService that the claims depend on: the
private fields streamEnabled and callback (tool-stream.service.ts lines
14-15).  The streams map of rxjs Subjects is not part of this record; the
updates pushed through it are modelled by the trace functions below. -/
structure ToolStreamState where
  streamEnabled : Bool
  callback : Option ToolStreamCallback

namespace ToolStreamService

/-- Constructor initialization (tool-stream.service.ts lines 18-35). -/
def initState (enableToolStreaming : Option Bool)
    (onToolStream : Option ToolStreamCallback) : ToolStreamState :=
  { streamEnabled := enableToolStreaming.getD DEFAULT_TOOL_STREAMING_ENABLED,
    callback := onToolStream }

/-- isStreamingEnabled (tool-stream.service.ts lines 42-44). -/
def isStreamingEnabled (st : ToolStreamState) : Bool :=
  st.streamEnabled

/-- setStreamingEnabled (tool-stream.service.ts lines 51-54). -/
def setStreamingEnabled (st : ToolStreamState) (enabled : Bool) : ToolStreamState :=
  { st with streamEnabled := enabled }

/-- setCallback (tool-stream.service.ts lines 61-85): stores the callback
and, when streaming is currently disabled, enables it; it also
re-subscribes existing streams to the new callback, which does not change
this state record. -/
def setCallback (st : ToolStreamState) (cb : ToolStreamCallback) : ToolStreamState :=
  { st with
    callback := some cb,
    streamEnabled := if st.streamEnabled then st.streamEnabled else true }

/-- Update emitted by startToolExecution when parameters are present
(tool-stream.service.ts lines 123-138); the envelope always passes the raw
input, serialized here as the string paramsJson. -/
def startUpdate (toolName paramsJson : String) : ToolStreamUpdate :=
  { type := .start, toolName := toolName,
    content := some ("Starting " ++ toolName ++ " with parameters: " ++ paramsJson),
    progress := none, error := none, result := none }

/-- Update emitted by updateToolProgress (tool-stream.service.ts lines
147-178). -/
def progressUpdate (toolName content : String) (progress : Option Nat) :
    ToolStreamUpdate :=
  { type := .progress, toolName := toolName, content := some content,
    progress := progress, error := none, result := none }

/-- Update emitted by completeToolExecution (tool-stream.service.ts lines
186-207). -/
def completeUpdate (toolName result : String) : ToolStreamUpdate :=
  { type := .complete, toolName := toolName,
    content := some ("Completed " ++ toolName),
    progress := none, error := none, result := some result }

/-- Update emitted by errorToolExecution (tool-stream.service.ts lines
215-238). -/
def errorUpdate (toolName errorMessage : String) : ToolStreamUpdate :=
  { type := .error, toolName := toolName,
    content := some ("Error in " ++ toolName),
    progress := none, error := some errorMessage, result := none }

/-- Modelled from the spec: the update emitted by
ToolStreamService.timeoutToolExecution, called from
tool-timeout.service.ts line 150 but missing from the snapshot.  Spec
sections 3 and 4.2 fix its kind as timeout for the named tool; the content
uses the TOOL_TIMEOUT_ERROR_MESSAGE constant the snapshot defines for this
purpose. -/
def timeoutUpdate (toolName : String) (timeoutMs : Nat) : ToolStreamUpdate :=
  { type := .timeout, toolName := toolName,
    content := some (TOOL_TIMEOUT_ERROR_MESSAGE ++ " after " ++ toString timeoutMs ++ "ms"),
    progress := none, error := none, result := none }

end ToolStreamService

/-- A terminal update kind: complete, error or timeout. -/
def isTerminal (t : ToolStreamUpdateType) : Bool :=
  match t with
  | .complete => true
  | .error => true
  | .timeout => true
  | .start => false
  | .progress => false

/-- One progress emission performed by a running tool body through
updateToolProgress: the instant (ms from the start of the body), the
content and the optional percentage. -/
structure ProgressEmission where
  time : Nat
  content : String
  progress : Option Nat
  deriving DecidableEq, Repr

/-- The observable behaviour of one wrapped method body: the progress
emissions it performs while running, its settle time and its outcome. -/
structure BodyScript where
  emissions : List ProgressEmission
  duration : Nat
  outcome : Except String String

namespace ToolDiscoveryService

/-- Progress updates produced for the given emissions: updateToolProgress
drops every update while the service flag streamEnabled is false
(tool-stream.service.ts lines 148-151) and is not gated by the per-tool
streaming flag. -/
def progressUpdates (svcEnabled : Bool) (toolName : String)
    (emissions : List ProgressEmission) : List ToolStreamUpdate :=
  if svcEnabled then
    emissions.map fun e => ToolStreamService.progressUpdate toolName e.content e.progress
  else
    []

/-- Terminal update emitted by the envelope on body settlement: complete
with the result or error with the message, both only when the envelope's
streamingEnabled (service flag and per-tool flag) holds
(tool-discovery.service.ts lines 153-158 and 169-171). -/
def settleUpdates (streamingEnabled : Bool) (toolName : String)
    (outcome : Except String String) : List ToolStreamUpdate :=
  if streamingEnabled then
    match outcome with
    | .ok r => [ToolStreamService.completeUpdate toolName r]
    | .error m => [ToolStreamService.errorUpdate toolName m]
  else
    []

/-- Stream updates emitted, in order, for one execution of the tool
wrapper built in ToolDiscoveryService.discoverToolsForProvider
(tool-discovery.service.ts lines 81-181), under the single-threaded
cooperative scheduler.  svcEnabled is the ToolStreamService flag, constant
during the execution; the envelope's streamingEnabled is svcEnabled and
the per-tool flag (line 83).  The start update is emitted at invocation
(lines 93-96).  When the effective deadline fires strictly before the body
settles, the timer callback in executeWithTimeout emits the timeout update
(gated by isStreamingEnabled, tool-timeout.service.ts lines 149-151) after
the body emissions earlier than the deadline; the race then rejects, the
envelope returns the timeout string, and the body keeps running and keeps
emitting its remaining progress updates, while its late settlement is
discarded by the already-settled race, so no complete or error update
follows.  When the pre-check alreadyTimedOut holds on the timed path, the
body is never run and executeWithTimeout rejects before creating the
timer, so only the start update is emitted.  Otherwise the body runs to
settlement and the envelope emits the single terminal update. -/
def wrappedToolTrace (svcEnabled : Bool) (tsvc : ToolTimeoutState)
    (meta : ToolOptions) (paramsJson : String) (alreadyTimedOut : Bool)
    (script : BodyScript) : List ToolStreamUpdate :=
  let streamingEnabled := svcEnabled && meta.streaming
  let startEvents :=
    if streamingEnabled then [ToolStreamService.startUpdate meta.name paramsJson] else []
  match effectiveTimeout tsvc meta with
  | some t =>
      if alreadyTimedOut then
        startEvents
      else if t < script.duration then
        startEvents ++
          progressUpdates svcEnabled meta.name
            (script.emissions.filter fun e => e.time < t) ++
          (if svcEnabled then [ToolStreamService.timeoutUpdate meta.name t] else []) ++
          progressUpdates svcEnabled meta.name
            (script.emissions.filter fun e => ¬ e.time < t)
      else
        startEvents ++ progressUpdates svcEnabled meta.name script.emissions ++
          settleUpdates streamingEnabled meta.name script.outcome
  | none =>
      startEvents ++ progressUpdates svcEnabled meta.name script.emissions ++
        settleUpdates streamingEnabled meta.name script.outcome

end ToolDiscoveryService

/-- Number of terminal updates in a trace. -/
def countTerminal (trace : List ToolStreamUpdate) : Nat :=
  trace.countP fun u => isTerminal u.type

/-- Holds when no progress update occurs after a terminal update in the
trace. -/
def noProgressAfterTerminal : List ToolStreamUpdate → Bool
  | [] => true
  | u :: rest =>
      if isTerminal u.type then
        (rest.all fun v => v.type ≠ ToolStreamUpdateType.progress) &&
          noProgressAfterTerminal rest
      else
        noProgressAfterTerminal rest

/-- Retrieval options attached to an agent.  Only the enabled flag decides
the behaviour the claims are about; the interface file declaring the full
RetrievalOptions shape is missing from the snapshot, and
agent-discovery.service.ts reads retrieval?.enabled for the gating
modelled here. -/
structure RetrievalOptions where
  enabled : Bool
  deriving DecidableEq, Repr

/-- Agent metadata fields consumed by the prompt assembly of
AgentDiscoveryService.initializeAgent: useMemory?: boolean (undefined is
falsy) and the optional retrieval options. -/
structure AgentOptions where
  name : String
  description : String
  systemPrompt : String
  useMemory : Bool
  retrieval : Option RetrievalOptions
  deriving DecidableEq, Repr

/-- Truthiness of agentOptions.retrieval?.enabled. -/
def retrievalEnabled (opts : AgentOptions) : Bool :=
  match opts.retrieval with
  | some r => r.enabled
  | none => false

/-- A part of the assembled chat prompt template. -/
inductive PromptPart
  | system (text : String)
  | chatHistoryPlaceholder
  | human (template : String)
  | contextPlaceholder
  | scratchpadPlaceholder
  deriving DecidableEq, Repr

namespace AgentDiscoveryService

/-- System prompt used for the agent: when retrieval is enabled a clause
about the search_knowledge_base tool is appended
(agent-discovery.service.ts lines 143-146). -/
def effectiveSystemPrompt (opts : AgentOptions) : String :=
  if retrievalEnabled opts then
    opts.systemPrompt ++
      "\n\nYou can search for information in the knowledge base using the search_knowledge_base tool when you need specific information. The knowledge base contains documents with relevant information for answering questions."
  else
    opts.systemPrompt

/-- Ordered messages of the ChatPromptTemplate assembled in
AgentDiscoveryService.initializeAgent (agent-discovery.service.ts lines
149-158): system prompt, the chat_history placeholder only when useMemory,
the human input, the context placeholder only when retrieval is enabled,
and the agent_scratchpad placeholder. -/
def agentPromptMessages (opts : AgentOptions) : List PromptPart :=
  [PromptPart.system (effectiveSystemPrompt opts)] ++
    (if opts.useMemory then [PromptPart.chatHistoryPlaceholder] else []) ++
    [PromptPart.human "{input}"] ++
    (if retrievalEnabled opts then [PromptPart.contextPlaceholder] else []) ++
    [PromptPart.scratchpadPlaceholder]

end AgentDiscoveryService

/-- A chat message of the session history (HumanMessage or AIMessage from
the langchain core messages module, as stored by MemoryService). -/
inductive BaseMessage
  | human (text : String)
  | ai (text : String)
  deriving DecidableEq, Repr

/-- Mutable state of MemoryService: the private sessionMemory map from
session id to message list (memory.service.ts line 14), modelled as a
lookup function (Map.get: some when the key is present). -/
structure MemoryServiceState where
  sessionMemory : String → Option (List BaseMessage)

/-- The empty memory state: no session present. -/
def emptyMemoryState : MemoryServiceState :=
  { sessionMemory := fun _ => none }

namespace MemoryService

/-- Map mutation performed by getMessages when the session is absent
(memory.service.ts lines 23-25: has/set), together with Map.set used via
the pushed-into array reference. -/
def setSession (st : MemoryServiceState) (sessionId : String)
    (messages : List BaseMessage) : MemoryServiceState :=
  { sessionMemory := fun s => if s = sessionId then some messages else st.sessionMemory s }

/-- Value returned by getMessages (memory.service.ts lines 22-27):
the stored list, or the empty list. -/
def getMessages (st : MemoryServiceState) (sessionId : String) : List BaseMessage :=
  (st.sessionMemory sessionId).getD []

/-- State after getMessages (memory.service.ts lines 22-27): an absent
session is created with the empty list; a present session is untouched. -/
def getMessagesState (st : MemoryServiceState) (sessionId : String) : MemoryServiceState :=
  match st.sessionMemory sessionId with
  | some _ => st
  | none => setSession st sessionId []

/-- addHumanMessage (memory.service.ts lines 35-39): getMessages followed
by a push into the returned array, which is the array stored in the map. -/
def addHumanMessage (st : MemoryServiceState) (text : String) (sessionId : String) :
    MemoryServiceState :=
  setSession (getMessagesState st sessionId) sessionId
    (getMessages st sessionId ++ [BaseMessage.human text])

/-- addAIMessage (memory.service.ts lines 46-50). -/
def addAIMessage (st : MemoryServiceState) (text : String) (sessionId : String) :
    MemoryServiceState :=
  setSession (getMessagesState st sessionId) sessionId
    (getMessages st sessionId ++ [BaseMessage.ai text])

/-- clearMemory (memory.service.ts lines 57-60). -/
def clearMemory (st : MemoryServiceState) (sessionId : String) : MemoryServiceState :=
  setSession st sessionId []

/-- Appends a sequence of human/AI exchange pairs to a session, the way
the coordinator records completed exchanges. -/
def appendPairs (st : MemoryServiceState) (sessionId : String) :
    List (String × String) → MemoryServiceState
  | [] => st
  | (h, a) :: rest =>
      appendPairs (addAIMessage (addHumanMessage st h sessionId) a sessionId) sessionId rest

end MemoryService

/-- Encoding of human/AI pairs as the message sequence they append. -/
def pairsToMessages : List (String × String) → List BaseMessage
  | [] => []
  | (h, a) :: rest => BaseMessage.human h :: BaseMessage.ai a :: pairsToMessages rest

/-- Name and description of a registered agent, as consumed by the
coordinator (interfaces/agent.interface.ts, AgentInfo); the executor is an
external langchain AgentExecutor and is abstracted away. -/
structure AgentSummary where
  name : String
  description : String
  deriving DecidableEq, Repr

/-- Mutable state of CoordinatorService: the private fields initialized
and coordinatorAgent (coordinator.service.ts lines 25-27); the agent value
itself is external, so only its presence is recorded. -/
structure CoordinatorState where
  isInitialized : Bool
  hasCoordinatorAgent : Bool
  deriving DecidableEq, Repr

/-- The coordinator state before any initialization
(coordinator.service.ts lines 25-27: coordinatorAgent null, initialized
false). -/
def initialCoordinatorState : CoordinatorState :=
  { isInitialized := false, hasCoordinatorAgent := false }

namespace CoordinatorService

/-- CoordinatorService.initialize (coordinator.service.ts lines 63-71 and
133-148): with no agents it warns and returns leaving the state unchanged;
otherwise it builds the delegation tools, model, prompt and executor, sets
coordinatorAgent and marks the service initialized.  Model and executor
construction are external langchain calls abstracted away. -/
def initializeCoordinator (agents : List AgentSummary) (st : CoordinatorState) :
    CoordinatorState :=
  if agents.length = 0 then st
  else { isInitialized := true, hasCoordinatorAgent := true }

/-- CoordinatorService.processMessage, non-streaming path
(coordinator.service.ts lines 223-283).  When the service is not
initialized or has no coordinator agent it re-runs agent discovery and
initialization on demand; if that still leaves no coordinator agent it
throws the Error with message Failed to initialize coordinator agent
(modelled as Except.error), before the try block, so the error propagates
to the caller.  Otherwise the executor is invoked; the external invocation
is abstracted by the total function invoke, so the catch wrapping
invocation errors is never taken in the model. -/
def processMessage (agents : List AgentSummary) (invoke : String → String)
    (st : CoordinatorState) (message : String) :
    CoordinatorState × Except String String :=
  let st1 :=
    if !st.isInitialized || !st.hasCoordinatorAgent then
      initializeCoordinator agents st
    else st
  if !st1.isInitialized || !st1.hasCoordinatorAgent then
    (st1, .error "Failed to initialize coordinator agent")
  else
    (st1, .ok (invoke message))

end CoordinatorService

/-
Theorems.  Helper lemmas come first; each claim then has exactly one
theorem, with a witness or counterexample where required.
-/

/-- The progress updates of an emission list are never terminal and count
zero terminals. -/
lemma countTerminal_progressUpdates (svcEnabled : Bool) (toolName : String)
    (es : List ProgressEmission) :
    countTerminal (ToolDiscoveryService.progressUpdates svcEnabled toolName es) = 0 := by
  unfold ToolDiscoveryService.progressUpdates
  split
  · induction es with
    | nil => rfl
    | cons e es ih =>
        simp [countTerminal, List.countP_cons, ToolStreamService.progressUpdate,
          isTerminal] at ih ⊢
  · rfl

/-- Every update in a progressUpdates list has the progress type. -/
lemma type_of_mem_progressUpdates (svcEnabled : Bool) (toolName : String)
    (es : List ProgressEmission) (u : ToolStreamUpdate)
    (h : u ∈ ToolDiscoveryService.progressUpdates svcEnabled toolName es) :
    u.type = ToolStreamUpdateType.progress := by
  unfold ToolDiscoveryService.progressUpdates at h
  split at h
  · obtain ⟨e, _, rfl⟩ := List.mem_map.mp h
    rfl
  · cases h

/-- countTerminal distributes over append. -/
lemma countTerminal_append (xs ys : List ToolStreamUpdate) :
    countTerminal (xs ++ ys) = countTerminal xs + countTerminal ys := by
  simp [countTerminal, List.countP_append]

/-- A singleton trace never has a progress update after a terminal one. -/
lemma noProgressAfterTerminal_singleton (u : ToolStreamUpdate) :
    noProgressAfterTerminal [u] = true := by
  unfold noProgressAfterTerminal
  split <;> simp [noProgressAfterTerminal]

/-- Prepending non-terminal updates preserves noProgressAfterTerminal. -/
lemma noProgressAfterTerminal_append (xs ys : List ToolStreamUpdate)
    (hxs : ∀ u ∈ xs, isTerminal u.type = false)
    (hys : noProgressAfterTerminal ys = true) :
    noProgressAfterTerminal (xs ++ ys) = true := by
  induction xs with
  | nil => simp only [List.nil_append]; exact hys
  | cons u xs ih =>
      have hu : isTerminal u.type = false := hxs u (List.mem_cons_self u xs)
      have ih' := ih fun v hv => hxs v (List.mem_cons_of_mem u hv)
      simpa [noProgressAfterTerminal, hu] using ih'

/-- The settle updates of an outcome form an empty or singleton list whose
sole element is terminal, so they count at most one terminal and contain
no progress update after a terminal one. -/
lemma settleUpdates_terminal_shape (streamingEnabled : Bool) (toolName : String)
    (outcome : Except String String) :
    countTerminal (ToolDiscoveryService.settleUpdates streamingEnabled toolName outcome) ≤ 1 ∧
    noProgressAfterTerminal
      (ToolDiscoveryService.settleUpdates streamingEnabled toolName outcome) = true := by
  unfold ToolDiscoveryService.settleUpdates
  cases streamingEnabled with
  | false => simp [countTerminal, noProgressAfterTerminal]
  | true =>
      cases outcome with
      | ok r =>
          refine ⟨?_, noProgressAfterTerminal_singleton _⟩
          simp [countTerminal, List.countP_cons, ToolStreamService.completeUpdate, isTerminal]
      | error m =>
          refine ⟨?_, noProgressAfterTerminal_singleton _⟩
          simp [countTerminal, List.countP_cons, ToolStreamService.errorUpdate, isTerminal]

/-- C1: for every tool invocation whose wrapped method body throws an
exception and whose execution does not time out (so the throw is the
outcome the envelope observes), the tool wrapper catches the exception and
returns the string Error: followed by the exception's message as the
tool's result.  wrappedToolResult is a total String-valued function, which
embeds the fact that no exception propagates out of the tool function to
the agent loop. -/
theorem tool_wrapper_catches_body_exception
    (tsvc : ToolTimeoutState) (meta : ToolOptions) (alreadyTimedOut : Bool)
    (bodyDuration : Nat) (m : String)
    (hnt : ToolDiscoveryService.doesTimeOut tsvc meta alreadyTimedOut bodyDuration = false) :
    ToolDiscoveryService.wrappedToolResult tsvc meta alreadyTimedOut bodyDuration
      (Except.error m) = "Error: " ++ m := by
  unfold ToolDiscoveryService.doesTimeOut ToolDiscoveryService.effectiveTimeout at hnt
  unfold ToolDiscoveryService.wrappedToolResult ToolTimeoutService.executeWithTimeout
  by_cases hg : ToolTimeoutService.isTimeoutEnabled tsvc
  · simp only [hg, if_true] at hnt ⊢
    by_cases hc : (ToolTimeoutService.getToolTimeoutConfig tsvc meta).enabled
    · simp only [hc, if_true] at hnt ⊢
      simp only [Bool.or_eq_false_iff, decide_eq_false_iff_not] at hnt
      simp [hnt.1, hnt.2]
    · simp [hc]
  · simp [hg]

/-- C1 witness: a tool boom with no timeout configured whose body throws
fail yields the result string Error: fail, not a thrown exception. -/
theorem tool_wrapper_catches_body_exception_witness :
    ToolDiscoveryService.doesTimeOut ⟨false, 30000⟩
        ⟨"boom", "always throws", false, none⟩ false 0 = false ∧
    ToolDiscoveryService.wrappedToolResult ⟨false, 30000⟩
        ⟨"boom", "always throws", false, none⟩ false 0 (Except.error "fail")
      = "Error: fail" := by
  refine ⟨by decide, ?_⟩
  have h := tool_wrapper_catches_body_exception ⟨false, 30000⟩
    ⟨"boom", "always throws", false, none⟩ false 0 "fail" (by decide)
  exact h

/-- C2: for a timeout-enabled execution whose deadline elapses strictly
before the body settles, executeWithTimeout rejects with a
ToolTimeoutError carrying the tool name and the duration, and the
envelope catches exactly that error and returns the string Error: Tool
execution timed out after the duration in ms; the error never escapes the
envelope (wrappedToolResult is total). -/
theorem timeout_rejection_converted_by_envelope
    (tsvc : ToolTimeoutState) (meta : ToolOptions) (bodyDuration : Nat)
    (bodyOutcome : Except String String)
    (hg : ToolTimeoutService.isTimeoutEnabled tsvc = true)
    (hc : (ToolTimeoutService.getToolTimeoutConfig tsvc meta).enabled = true)
    (hlt : (ToolTimeoutService.getToolTimeoutConfig tsvc meta).durationMs < bodyDuration) :
    ToolTimeoutService.executeWithTimeout false bodyDuration bodyOutcome meta.name
        (ToolTimeoutService.getToolTimeoutConfig tsvc meta).durationMs
      = Except.error (ToolError.toolTimeout meta.name
          (ToolTimeoutService.getToolTimeoutConfig tsvc meta).durationMs) ∧
    ToolDiscoveryService.wrappedToolResult tsvc meta false bodyDuration bodyOutcome
      = "Error: Tool execution timed out after " ++
          toString (ToolTimeoutService.getToolTimeoutConfig tsvc meta).durationMs ++ "ms" := by
  have hrace : ToolTimeoutService.executeWithTimeout false bodyDuration bodyOutcome meta.name
      (ToolTimeoutService.getToolTimeoutConfig tsvc meta).durationMs
      = Except.error (ToolError.toolTimeout meta.name
          (ToolTimeoutService.getToolTimeoutConfig tsvc meta).durationMs) := by
    unfold ToolTimeoutService.executeWithTimeout
    simp [hlt]
  refine ⟨hrace, ?_⟩
  unfold ToolDiscoveryService.wrappedToolResult
  simp [hg, hc, hrace]

/-- C2 witness: a tool with a 50ms timeout whose body would settle at
500ms rejects with ToolTimeoutError for that tool and duration, and the
wrapped tool returns the timeout message string. -/
theorem timeout_rejection_converted_by_envelope_witness :
    ToolTimeoutService.executeWithTimeout false 500 (Except.ok "late") "slow_tool" 50
      = Except.error (ToolError.toolTimeout "slow_tool" 50) ∧
    ToolDiscoveryService.wrappedToolResult ⟨true, 30000⟩
        ⟨"slow_tool", "slow op", true, some (ToolTimeoutSetting.num 50)⟩ false 500
        (Except.ok "late")
      = "Error: Tool execution timed out after 50ms" := by
  have h := timeout_rejection_converted_by_envelope ⟨true, 30000⟩
    ⟨"slow_tool", "slow op", true, some (ToolTimeoutSetting.num 50)⟩ 500
    (Except.ok "late") rfl rfl (by decide)
  exact ⟨h.1, h.2⟩

/-- C3 counterexample: with the global timeout flag disabled, a tool that
declares its own timeout of 50ms is executed with no timeout at all: the
effective timeout is none and a body settling at 500ms returns its result,
although the tool's own configuration is enabled with duration 50.  The
per-tool setting therefore does not decide the execution regardless of the
global enabled flag. -/
theorem per_tool_timeout_ignored_when_global_disabled :
    ToolTimeoutService.getToolTimeoutConfig ⟨false, 30000⟩
        ⟨"slow_tool", "slow op", false, some (ToolTimeoutSetting.num 50)⟩
      = ⟨true, 50⟩ ∧
    ToolDiscoveryService.effectiveTimeout ⟨false, 30000⟩
        ⟨"slow_tool", "slow op", false, some (ToolTimeoutSetting.num 50)⟩ = none ∧
    ToolDiscoveryService.wrappedToolResult ⟨false, 30000⟩
        ⟨"slow_tool", "slow op", false, some (ToolTimeoutSetting.num 50)⟩ false 500
        (Except.ok "late result")
      = "late result" := by
  exact ⟨by decide, by decide, by decide⟩

/-- C3 amended: a tool's own timeout declaration always determines
getToolTimeoutConfig, independently of the global state, a bare number
meaning enabled with that duration; and that configuration governs the
execution whenever the global timeout flag is enabled.  When the global
flag is disabled the execution applies no timeout (see the
counterexample). -/
theorem per_tool_timeout_wins_when_global_enabled
    (meta : ToolOptions) (t : ToolTimeoutSetting) (ht : meta.timeout = some t) :
    (∀ st st' : ToolTimeoutState,
        ToolTimeoutService.getToolTimeoutConfig st meta
          = ToolTimeoutService.getToolTimeoutConfig st' meta) ∧
    (∀ (st : ToolTimeoutState) (n : Nat), t = ToolTimeoutSetting.num n →
        ToolTimeoutService.getToolTimeoutConfig st meta = ⟨true, n⟩ ∧
        (st.globalTimeoutEnabled = true →
          ToolDiscoveryService.effectiveTimeout st meta = some n)) := by
  constructor
  · intro st st'
    unfold ToolTimeoutService.getToolTimeoutConfig
    simp only [ht]
    cases t <;> rfl
  · rintro st n rfl
    have hcfg : ToolTimeoutService.getToolTimeoutConfig st meta = ⟨true, n⟩ := by
      unfold ToolTimeoutService.getToolTimeoutConfig
      simp [ht]
    refine ⟨hcfg, fun hen => ?_⟩
    unfold ToolDiscoveryService.effectiveTimeout
    simp [ToolTimeoutService.isTimeoutEnabled, hen, hcfg]

/-- C3 amended witness: a tool with its own timeout of 50ms under an
enabled global state with duration 30000 gets configuration enabled with
50ms, and the execution applies the 50ms deadline. -/
theorem per_tool_timeout_wins_when_global_enabled_witness :
    ToolTimeoutService.getToolTimeoutConfig ⟨true, 30000⟩
        ⟨"slow_tool", "slow op", false, some (ToolTimeoutSetting.num 50)⟩ = ⟨true, 50⟩ ∧
    ToolDiscoveryService.effectiveTimeout ⟨true, 30000⟩
        ⟨"slow_tool", "slow op", false, some (ToolTimeoutSetting.num 50)⟩ = some 50 := by
  have h := (per_tool_timeout_wins_when_global_enabled
    ⟨"slow_tool", "slow op", false, some (ToolTimeoutSetting.num 50)⟩
    (ToolTimeoutSetting.num 50) rfl).2 ⟨true, 30000⟩ 50 rfl
  exact ⟨h.1, h.2 rfl⟩

/-- Start updates are never terminal and count zero terminals. -/
lemma countTerminal_startEvents (b : Bool) (n p : String) :
    countTerminal (if b then [ToolStreamService.startUpdate n p] else []) = 0 := by
  cases b <;>
    simp [countTerminal, ToolStreamService.startUpdate, isTerminal,
      List.countP_cons, List.countP_nil]

/-- Start updates are non-terminal, elementwise. -/
lemma startEvents_not_terminal (b : Bool) (n p : String) :
    ∀ u ∈ (if b then [ToolStreamService.startUpdate n p] else []),
      isTerminal u.type = false := by
  cases b <;> simp [ToolStreamService.startUpdate, isTerminal]

/-- Progress updates are non-terminal, elementwise. -/
lemma progressUpdates_not_terminal (svcEnabled : Bool) (toolName : String)
    (es : List ProgressEmission) :
    ∀ u ∈ ToolDiscoveryService.progressUpdates svcEnabled toolName es,
      isTerminal u.type = false := by
  intro u hu
  rw [type_of_mem_progressUpdates svcEnabled toolName es u hu]
  rfl

/-- The optional timeout update counts at most one terminal. -/
lemma countTerminal_timeoutEvents (b : Bool) (n : String) (t : Nat) :
    countTerminal (if b then [ToolStreamService.timeoutUpdate n t] else []) ≤ 1 := by
  cases b <;>
    simp [countTerminal, ToolStreamService.timeoutUpdate, isTerminal,
      List.countP_cons, List.countP_nil]

/-- C4 counterexample: a streaming tool with a 50ms timeout whose body
runs for 500ms and emits a progress update at 300ms produces a trace with
exactly one terminal update (the timeout) followed by a progress update of
the same execution: the second half of the claim fails, because the
non-cancelled body keeps running and keeps publishing progress after the
timeout terminal was emitted. -/
theorem progress_after_terminal_counterexample :
    countTerminal (ToolDiscoveryService.wrappedToolTrace true ⟨true, 30000⟩
        ⟨"slow_tool", "slow op", true, some (ToolTimeoutSetting.num 50)⟩ "input" false
        ⟨[⟨300, "running step 3", some 60⟩], 500, Except.ok "done"⟩) = 1 ∧
    noProgressAfterTerminal (ToolDiscoveryService.wrappedToolTrace true ⟨true, 30000⟩
        ⟨"slow_tool", "slow op", true, some (ToolTimeoutSetting.num 50)⟩ "input" false
        ⟨[⟨300, "running step 3", some 60⟩], 500, Except.ok "done"⟩) = false := by
  exact ⟨by decide, by decide⟩

/-- C4 amended: every execution emits at most one terminal update, and
when the execution does not time out, no progress update of that execution
is emitted after its terminal update.  A timed-out execution may still be
followed by progress updates from its non-cancelled body (see the
counterexample). -/
theorem at_most_one_terminal_update
    (svcEnabled : Bool) (tsvc : ToolTimeoutState) (meta : ToolOptions)
    (paramsJson : String) (alreadyTimedOut : Bool) (script : BodyScript) :
    countTerminal (ToolDiscoveryService.wrappedToolTrace svcEnabled tsvc meta
      paramsJson alreadyTimedOut script) ≤ 1 ∧
    (ToolDiscoveryService.doesTimeOut tsvc meta alreadyTimedOut script.duration = false →
      noProgressAfterTerminal (ToolDiscoveryService.wrappedToolTrace svcEnabled tsvc meta
        paramsJson alreadyTimedOut script) = true) := by
  constructor
  · unfold ToolDiscoveryService.wrappedToolTrace
    cases he : ToolDiscoveryService.effectiveTimeout tsvc meta with
    | none =>
        simp only [he]
        rw [countTerminal_append, countTerminal_append]
        rw [countTerminal_startEvents, countTerminal_progressUpdates]
        simpa using (settleUpdates_terminal_shape (svcEnabled && meta.streaming)
          meta.name script.outcome).1
    | some t =>
        simp only [he]
        by_cases ha : alreadyTimedOut = true
        · rw [if_pos ha, countTerminal_startEvents]
          exact Nat.zero_le 1
        · rw [if_neg ha]
          by_cases hlt : t < script.duration
          · rw [if_pos hlt]
            rw [countTerminal_append, countTerminal_append, countTerminal_append]
            rw [countTerminal_startEvents, countTerminal_progressUpdates,
              countTerminal_progressUpdates]
            simpa using countTerminal_timeoutEvents svcEnabled meta.name t
          · rw [if_neg hlt]
            rw [countTerminal_append, countTerminal_append]
            rw [countTerminal_startEvents, countTerminal_progressUpdates]
            simpa using (settleUpdates_terminal_shape (svcEnabled && meta.streaming)
              meta.name script.outcome).1
  · intro hnt
    unfold ToolDiscoveryService.doesTimeOut at hnt
    unfold ToolDiscoveryService.wrappedToolTrace
    cases he : ToolDiscoveryService.effectiveTimeout tsvc meta with
    | none =>
        simp only [he]
        rw [List.append_assoc]
        refine noProgressAfterTerminal_append _ _ (startEvents_not_terminal _ _ _) ?_
        refine noProgressAfterTerminal_append _ _ (progressUpdates_not_terminal _ _ _) ?_
        exact (settleUpdates_terminal_shape _ _ _).2
    | some t =>
        rw [he] at hnt
        simp only [Bool.or_eq_false_iff, decide_eq_false_iff_not] at hnt
        simp only [he]
        have ha : ¬ alreadyTimedOut = true := by simp [hnt.1]
        rw [if_neg ha, if_neg hnt.2]
        rw [List.append_assoc]
        refine noProgressAfterTerminal_append _ _ (startEvents_not_terminal _ _ _) ?_
        refine noProgressAfterTerminal_append _ _ (progressUpdates_not_terminal _ _ _) ?_
        exact (settleUpdates_terminal_shape _ _ _).2

/-- C4 amended witness: a completed execution of a streaming tool with no
timeout emits at most one terminal update and never a progress update
after it. -/
theorem at_most_one_terminal_update_witness :
    ToolDiscoveryService.doesTimeOut ⟨false, 30000⟩
        ⟨"echo", "echoes", true, none⟩ false 10 = false ∧
    countTerminal (ToolDiscoveryService.wrappedToolTrace true ⟨false, 30000⟩
        ⟨"echo", "echoes", true, none⟩ "text hi" false
        ⟨[⟨5, "halfway", some 50⟩], 10, Except.ok "hi"⟩) ≤ 1 ∧
    noProgressAfterTerminal (ToolDiscoveryService.wrappedToolTrace true ⟨false, 30000⟩
        ⟨"echo", "echoes", true, none⟩ "text hi" false
        ⟨[⟨5, "halfway", some 50⟩], 10, Except.ok "hi"⟩) = true := by
  have h := at_most_one_terminal_update true ⟨false, 30000⟩
    ⟨"echo", "echoes", true, none⟩ "text hi" false
    ⟨[⟨5, "halfway", some 50⟩], 10, Except.ok "hi"⟩
  exact ⟨by decide, h.1, h.2 (by decide)⟩

/-- C5: for every tool invocation whose raw input fails the declared
schema validation, the tool unit returns the InvalidInput error text as
its result (a returned string, not a thrown exception) and the wrapped
method body is not invoked: the result is the same for every possible
body. -/
theorem invalid_input_returns_error_text_without_body
    {α : Type} (validate : α → Bool) (raw : α) (hv : validate raw = false) :
    (∀ body body' : α → String,
        toolUnitInvoke validate body raw = toolUnitInvoke validate body' raw) ∧
    (∀ body : α → String,
        toolUnitInvoke validate body raw
          = "InvalidInput: tool input failed schema validation") := by
  constructor
  · intro body body'
    simp [toolUnitInvoke, hv]
  · intro body
    simp [toolUnitInvoke, hv]

/-- C5 witness: a validator rejecting every input makes the tool return
the InvalidInput text for input hi, for any body. -/
theorem invalid_input_returns_error_text_without_body_witness :
    (fun (_ : String) => false) "hi" = false ∧
    toolUnitInvoke (fun (_ : String) => false) (fun s => s) "hi"
      = "InvalidInput: tool input failed schema validation" := by
  refine ⟨rfl, ?_⟩
  exact (invalid_input_returns_error_text_without_body
    (fun (_ : String) => false) "hi" rfl).2 (fun s => s)

/-- C7: the assembled agent prompt contains the chat-history placeholder
exactly when memory is enabled and the context placeholder exactly when
retrieval is enabled; a disabled feature's placeholder is absent from the
list, not empty. -/
theorem prompt_placeholders_iff_features (opts : AgentOptions) :
    (PromptPart.chatHistoryPlaceholder ∈ AgentDiscoveryService.agentPromptMessages opts
      ↔ opts.useMemory = true) ∧
    (PromptPart.contextPlaceholder ∈ AgentDiscoveryService.agentPromptMessages opts
      ↔ retrievalEnabled opts = true) := by
  unfold AgentDiscoveryService.agentPromptMessages
  cases h1 : opts.useMemory <;> cases h2 : retrievalEnabled opts <;> simp [h1, h2]

/-- C7 witness: an agent with memory enabled and no retrieval gets the
chat-history placeholder and not the context placeholder. -/
theorem prompt_placeholders_iff_features_witness :
    PromptPart.chatHistoryPlaceholder ∈
      AgentDiscoveryService.agentPromptMessages ⟨"a", "agent", "be helpful", true, none⟩ ∧
    PromptPart.contextPlaceholder ∉
      AgentDiscoveryService.agentPromptMessages ⟨"a", "agent", "be helpful", true, none⟩ := by
  have h := prompt_placeholders_iff_features ⟨"a", "agent", "be helpful", true, none⟩
  refine ⟨h.1.mpr rfl, fun hc => ?_⟩
  have := h.2.mp hc
  simp [retrievalEnabled] at this

/-- C10: registering a stream callback force-enables tool streaming:
after any setCallback the service reports streaming enabled, even when
streaming had been disabled by configuration or by a prior
setStreamingEnabled false. -/
theorem setCallback_forces_streaming_enabled
    (st : ToolStreamState) (cb : ToolStreamCallback) :
    ToolStreamService.isStreamingEnabled (ToolStreamService.setCallback st cb) = true ∧
    ToolStreamService.isStreamingEnabled
      (ToolStreamService.setCallback (ToolStreamService.setStreamingEnabled st false) cb)
      = true ∧
    ToolStreamService.isStreamingEnabled
      (ToolStreamService.setCallback (ToolStreamService.initState (some false) none) cb)
      = true := by
  refine ⟨?_, ?_, ?_⟩
  · cases h : st.streamEnabled <;>
      simp [ToolStreamService.isStreamingEnabled, ToolStreamService.setCallback, h]
  · simp [ToolStreamService.isStreamingEnabled, ToolStreamService.setCallback,
      ToolStreamService.setStreamingEnabled]
  · simp [ToolStreamService.isStreamingEnabled, ToolStreamService.setCallback,
      ToolStreamService.initState]

/-- Reading a session back right after setting it yields the stored
list. -/
lemma getMessages_setSession_self (st : MemoryServiceState) (sid : String)
    (v : List BaseMessage) :
    MemoryService.getMessages (MemoryService.setSession st sid v) sid = v := by
  simp [MemoryService.getMessages, MemoryService.setSession]

/-- addHumanMessage appends one human message at the end of the session. -/
lemma getMessages_addHumanMessage (st : MemoryServiceState) (t sid : String) :
    MemoryService.getMessages (MemoryService.addHumanMessage st t sid) sid
      = MemoryService.getMessages st sid ++ [BaseMessage.human t] := by
  simp [MemoryService.addHumanMessage, getMessages_setSession_self]

/-- addAIMessage appends one AI message at the end of the session. -/
lemma getMessages_addAIMessage (st : MemoryServiceState) (t sid : String) :
    MemoryService.getMessages (MemoryService.addAIMessage st t sid) sid
      = MemoryService.getMessages st sid ++ [BaseMessage.ai t] := by
  simp [MemoryService.addAIMessage, getMessages_setSession_self]

/-- appendPairs appends the encoded pairs at the end of the session. -/
lemma getMessages_appendPairs (st : MemoryServiceState) (sid : String)
    (pairs : List (String × String)) :
    MemoryService.getMessages (MemoryService.appendPairs st sid pairs) sid
      = MemoryService.getMessages st sid ++ pairsToMessages pairs := by
  induction pairs generalizing st with
  | nil => simp [MemoryService.appendPairs, pairsToMessages]
  | cons p rest ih =>
      obtain ⟨h, a⟩ := p
      rw [MemoryService.appendPairs, ih, getMessages_addAIMessage,
        getMessages_addHumanMessage]
      simp [pairsToMessages]

/-- C8: appending N human/AI pairs to a fresh session and reading it back
returns exactly those pairs in append order; a never-accessed session
reads as the empty list; and the read itself does not change any session's
messages (idempotent read, append-only write). -/
theorem memory_roundtrip_append_read
    (st : MemoryServiceState) (sessionId : String) (pairs : List (String × String))
    (hfresh : st.sessionMemory sessionId = none) :
    MemoryService.getMessages st sessionId = [] ∧
    (∀ sid' : String,
        MemoryService.getMessages (MemoryService.getMessagesState st sessionId) sid'
          = MemoryService.getMessages st sid') ∧
    MemoryService.getMessages (MemoryService.appendPairs st sessionId pairs) sessionId
      = pairsToMessages pairs := by
  have h0 : MemoryService.getMessages st sessionId = [] := by
    simp [MemoryService.getMessages, hfresh]
  refine ⟨h0, ?_, ?_⟩
  · intro sid'
    unfold MemoryService.getMessagesState
    rw [hfresh]
    by_cases hs : sid' = sessionId
    · subst hs
      simp [MemoryService.getMessages, MemoryService.setSession, hfresh]
    · simp [MemoryService.getMessages, MemoryService.setSession, hs]
  · rw [getMessages_appendPairs, h0, List.nil_append]

/-- C8 witness: two pairs appended to the default session of the empty
state read back as exactly those four messages in order. -/
theorem memory_roundtrip_append_read_witness :
    MemoryService.getMessages
        (MemoryService.appendPairs emptyMemoryState "default"
          [("hi", "hello"), ("what did I just ask?", "you asked hi")]) "default"
      = [BaseMessage.human "hi", BaseMessage.ai "hello",
         BaseMessage.human "what did I just ask?", BaseMessage.ai "you asked hi"] := by
  have h := memory_roundtrip_append_read emptyMemoryState "default"
    [("hi", "hello"), ("what did I just ask?", "you asked hi")] rfl
  exact h.2.2

/-- C9: a processMessage call on a coordinator that is not initialized (or
has no coordinator agent) re-runs initialization on demand; with zero
registered agents the initialization leaves the service uninitialized and
processMessage returns the thrown Error Failed to initialize coordinator
agent -- an explicit error, not an empty success -- while with at least
one agent the on-demand initialization succeeds and the message is
processed. -/
theorem processMessage_initializes_or_errors
    (st : CoordinatorState) (invoke : String → String) (message : String)
    (h : st.isInitialized = false ∨ st.hasCoordinatorAgent = false) :
    (CoordinatorService.processMessage [] invoke st message).2
      = Except.error "Failed to initialize coordinator agent" ∧
    (∀ agents : List AgentSummary, agents ≠ [] →
        (CoordinatorService.processMessage agents invoke st message).2
          = Except.ok (invoke message) ∧
        (CoordinatorService.processMessage agents invoke st message).1
          = ⟨true, true⟩) := by
  have hcheck : (!st.isInitialized || !st.hasCoordinatorAgent) = true := by
    rcases h with h | h <;> simp [h]
  constructor
  · unfold CoordinatorService.processMessage CoordinatorService.initializeCoordinator
    simp [hcheck]
  · intro agents hne
    have hlen : ¬ agents.length = 0 := by
      simpa [List.length_eq_zero] using hne
    unfold CoordinatorService.processMessage CoordinatorService.initializeCoordinator
    simp [hcheck, hlen]

/-- C9 witness: the fresh coordinator state with zero agents errors with
the initialization message, and with one registered agent it initializes
on demand and returns the routed result. -/
theorem processMessage_initializes_or_errors_witness :
    (CoordinatorService.processMessage [] (fun _ => "routed")
        initialCoordinatorState "hello").2
      = Except.error "Failed to initialize coordinator agent" ∧
    (CoordinatorService.processMessage [⟨"Weather Agent", "forecasts"⟩]
        (fun _ => "routed") initialCoordinatorState "hello").2
      = Except.ok "routed" := by
  have h := processMessage_initializes_or_errors initialCoordinatorState
    (fun _ => "routed") "hello" (Or.inl rfl)
  exact ⟨h.1, (h.2 [⟨"Weather Agent", "forecasts"⟩] (List.cons_ne_nil _ _)).1⟩

end LCTools
